import Mathlib

/-!
Verification of the marko markdown reader (main.go): a shallow embedding of
its command-line parsing, input resolution, terminal output policy, terminal
size probing and browser reader page construction, together with theorems
about the properties the specification states.
-/

namespace Marko

/-- Version constant of the program (const version in main.go). -/
def version : String := "0.2.0"

/-- Usage text printed by help and by running with no arguments
(const usage in main.go). -/
def usage : String :=
  "marko — a terminal markdown reader\n\nUsage:\n"
  ++ "  marko <file.md>       Open in visual reader (default)\n"
  ++ "  marko -t <file.md>    Render markdown in terminal\n  marko -               Read from stdin\n"
  ++ "  cat file | marko      Pipe markdown to stdin\n\nOptions:\n"
  ++ "  -t, --term    Render in terminal instead of visual reader\n  --help        Show this help\n"
  ++ "  --version     Show version\n\nEnvironment:\n"
  ++ "  GLAMOUR_STYLE   Set terminal rendering style (dark, light, notty, dracula, ascii)\n"
  ++ "  PAGER           Set pager command (default: less -r)"

/-- Loop body of parseFlags in main.go: the Go for-loop walks the argument
list left to right, setting termMode on "-t" or "--term" and appending every
other argument to the remaining list. The accumulator holds (termMode,
remaining) gathered so far. -/
def parseFlagsAux (acc : Bool × List String) : List String → Bool × List String
  | [] => acc
  | a :: rest =>
    if a = "-t" ∨ a = "--term" then parseFlagsAux (true, acc.2) rest
    else parseFlagsAux (acc.1, acc.2 ++ [a]) rest

/-- parseFlags in main.go: scan the arguments for the terminal-mode flag and
return the flag together with the remaining arguments. -/
def parseFlags (args : List String) : Bool × List String :=
  parseFlagsAux (false, []) args

/-- The external state getInput in main.go consults: whether stdin is piped
(stdinIsPiped), the bytes stdin holds, and the file system, mapping a path to
its contents or to the error message the failed read produces. -/
structure Env where
  stdinPiped : Bool
  stdinContent : String
  fs : String → Except String String

/-- Outcome of getInput in main.go: print usage and exit 0, print the version
line and exit 0, markdown bytes obtained, or a descriptive error. -/
inductive InputResult where
  | exitUsage : InputResult
  | exitVersion : InputResult
  | ok : String → InputResult
  | err : String → InputResult
deriving DecidableEq, Repr

/-- getInput in main.go: with no arguments, read piped stdin or print usage
and exit 0; a leading help or version flag prints and exits 0; a leading "-"
reads stdin; more than one remaining argument is an error; otherwise the
single argument is a file path, whose read failure or empty contents is an
error. -/
def getInput (env : Env) (args : List String) : InputResult :=
  match args with
  | [] => if env.stdinPiped then .ok env.stdinContent else .exitUsage
  | a0 :: rest =>
    if a0 = "--help" ∨ a0 = "-h" then .exitUsage
    else if a0 = "--version" ∨ a0 = "-v" then .exitVersion
    else if a0 = "-" then .ok env.stdinContent
    else if rest ≠ [] then .err "too many arguments (expected 1 file)"
    else
      match env.fs a0 with
      | .error e => .err e
      | .ok data => if data = "" then .err (a0 ++ ": file is empty") else .ok data

/-- Outcome of the front of main and run in main.go, up to the point where
rendering is handed to the external libraries: exit 0 with text on stdout,
exit 1 with text on stderr, or proceed to render the obtained markdown in the
selected mode. -/
inductive ProcResult where
  | exit0 : String → ProcResult
  | exit1 : String → ProcResult
  | proceed : Bool → String → ProcResult
deriving DecidableEq, Repr

/-- Composition of main, run, parseFlags and getInput in main.go: parse the
flags, resolve the input, and on error print the message with the "marko: "
badge on stderr and exit 1 (main in main.go). -/
def mainStep (env : Env) (argv : List String) : ProcResult :=
  let p := parseFlags argv
  match getInput env p.2 with
  | .exitUsage => .exit0 (usage ++ "\n")
  | .exitVersion => .exit0 ("marko " ++ version ++ "\n")
  | .err m => .exit1 ("marko: " ++ m ++ "\n")
  | .ok md => .proceed p.1 md

/-- strings.Count(rendered, "\n") as used by output in main.go: the number of
newline characters in the rendered string. -/
def countNewlines (s : String) : Nat :=
  s.toList.count '\n'

/-- terminalWidth in main.go: term.GetSize is modelled as an optional pair of
width and height, none standing for a failed call. A failure or a
non-positive width gives 80; a width above 120 is capped at 120. -/
def terminalWidth (size : Option (Int × Int)) : Int :=
  match size with
  | none => 80
  | some (w, _) => if w ≤ 0 then 80 else if w > 120 then 120 else w

/-- terminalHeight in main.go: a failed size query or a non-positive height
gives 24, otherwise the detected height. -/
def terminalHeight (size : Option (Int × Int)) : Int :=
  match size with
  | none => 24
  | some (_, h) => if h ≤ 0 then 24 else h

/-- What output in main.go does with the rendered string: print it directly
on stdout; hand it to the pager subprocess, whose stdin is the string and
whose stdout is the process stdout; or, the pager having failed to start or
run, print it directly as the fallback. -/
inductive OutputAction where
  | direct : String → OutputAction
  | paged : String → OutputAction
  | fallback : String → OutputAction
deriving DecidableEq, Repr

/-- output in main.go: a non-terminal stdout prints directly; otherwise the
rendered line count is compared with the terminal height, printing directly
when it fits and invoking the pager when it overflows, falling back to direct
printing when the pager run fails. pagerFails records whether cmd.Run of the
pager subprocess returns an error. -/
def output (tty : Bool) (size : Option (Int × Int)) (pagerFails : Bool)
    (rendered : String) : OutputAction :=
  if tty = false then .direct rendered
  else
    let height := terminalHeight size
    let lines : Int := countNewlines rendered
    if lines ≤ height then .direct rendered
    else if pagerFails then .fallback rendered else .paged rendered

/-- The text an OutputAction delivers to the process standard output: a
direct print and the pager fallback print the string itself, and the pager
path feeds the string to the pager whose stdout is the process stdout. -/
def stdoutText : OutputAction → String
  | .direct s => s
  | .paged s => s
  | .fallback s => s

/-- Whether an OutputAction took the pager path, whether the pager succeeded
or not. -/
def usesPagerPath : OutputAction → Bool
  | .direct _ => false
  | .paged _ => true
  | .fallback _ => true

/-- Loop of extractTitle in main.go over the lines of the input: the first
line starting with "# " yields the line with that marker trimmed off, and
"marko reader" is the default when no line matches. -/
def extractTitleAux : List String → String
  | [] => "marko reader"
  | l :: rest => if l.startsWith "# " then l.drop 2 else extractTitleAux rest

/-- extractTitle in main.go: split the markdown on newlines and scan for the
first level-1 heading line. -/
def extractTitle (md : String) : String :=
  extractTitleAux (md.splitOn "\n")

/-- Title function written from the words of the specification, used to
compare with extractTitle: the text following "# " on the first line of the
input that starts with "# ", and the fixed default title "marko reader" when
no line of the input starts with "# ". -/
def specTitle (md : String) : String :=
  match (md.splitOn "\n").find? (fun l => l.startsWith "# ") with
  | some l => l.drop 2
  | none => "marko reader"

/-- Part of the leading literal of the readerPage template in main.go that
stands before the opening title tag. -/
def pageHeadPre : String :=
  "<!DOCTYPE html>\n<html lang=\"en\">\n<head>\n<meta charset=\"utf-8\">\n"
  ++ "<meta name=\"viewport\" content=\"width=device-width, initial-scale=1\">\n"

/-- Leading literal of the readerPage template in main.go, up to and
including the opening title tag. -/
def pageHead : String :=
  pageHeadPre ++ "<title>"

/-- Part of the middle literal of the readerPage template in main.go that
follows the closing title tag: the style sheet and the opening of body and
article. -/
def pageMidRest : String :=
  "\n<style>\n:root \x7b\n  --bg: #ffffff;\n  --fg: #24292e;\n  --secondary: #586069;\n"
  ++ "  --border: #e1e4e8;\n  --code-bg: #f6f8fa;\n  --link: #0366d6;\n  --quote-border: #dfe2e5;\n"
  ++ "  --table-border: #dfe2e5;\n\x7d\n@media (prefers-color-scheme: dark) \x7b\n  :root \x7b\n    --bg: #0d1117;\n"
  ++ "    --fg: #c9d1d9;\n    --secondary: #8b949e;\n    --border: #30363d;\n    --code-bg: #161b22;\n"
  ++ "    --link: #58a6ff;\n    --quote-border: #3b434b;\n    --table-border: #30363d;\n  \x7d\n\x7d\n"
  ++ "* \x7b margin: 0; padding: 0; box-sizing: border-box; \x7d\nbody \x7b\n"
  ++ "  font-family: -apple-system, BlinkMacSystemFont, \"Segoe UI\", \"Noto Sans\", Helvetica, Arial, sans-serif;\n"
  ++ "  font-size: 17px;\n  line-height: 1.7;\n  color: var(--fg);\n  background: var(--bg);\n"
  ++ "  padding: 3rem 1.5rem;\n\x7d\narticle \x7b max-width: 720px; margin: 0 auto; \x7d\n"
  ++ "h1, h2, h3, h4, h5, h6 \x7b\n  margin-top: 1.5em;\n  margin-bottom: 0.5em;\n  font-weight: 600;\n"
  ++ "  line-height: 1.3;\n\x7d\n"
  ++ "h1 \x7b font-size: 2em; border-bottom: 1px solid var(--border); padding-bottom: 0.3em; \x7d\n"
  ++ "h2 \x7b font-size: 1.5em; border-bottom: 1px solid var(--border); padding-bottom: 0.3em; \x7d\n"
  ++ "h3 \x7b font-size: 1.25em; \x7d\nh1:first-child \x7b margin-top: 0; \x7d\np \x7b margin-bottom: 1em; \x7d\n"
  ++ "a \x7b color: var(--link); text-decoration: none; \x7d\na:hover \x7b text-decoration: underline; \x7d\n"
  ++ "code \x7b\n  font-family: \"SFMono-Regular\", Consolas, \"Liberation Mono\", Menlo, monospace;\n"
  ++ "  font-size: 0.875em;\n  background: var(--code-bg);\n  padding: 0.2em 0.4em;\n  border-radius: 4px;\n\x7d\n"
  ++ "pre \x7b\n  margin-bottom: 1em;\n  padding: 1em;\n  overflow-x: auto;\n  border-radius: 8px;\n"
  ++ "  line-height: 1.5;\n  background: var(--code-bg);\n\x7d\npre code \x7b background: none; padding: 0; \x7d\n"
  ++ "blockquote \x7b\n  margin-bottom: 1em;\n  padding: 0.5em 1em;\n  border-left: 4px solid var(--quote-border);\n"
  ++ "  color: var(--secondary);\n\x7d\nul, ol \x7b margin-bottom: 1em; padding-left: 2em; \x7d\n"
  ++ "li \x7b margin-bottom: 0.25em; \x7d\n"
  ++ "table \x7b width: 100%; margin-bottom: 1em; border-collapse: collapse; \x7d\n"
  ++ "th, td \x7b padding: 0.5em 1em; border: 1px solid var(--table-border); text-align: left; \x7d\n"
  ++ "th \x7b font-weight: 600; background: var(--code-bg); \x7d\nimg \x7b max-width: 100%; height: auto; \x7d\n"
  ++ "hr \x7b margin: 1.5em 0; border: none; border-top: 1px solid var(--border); \x7d\n"
  ++ "input[type=\"checkbox\"] \x7b margin-right: 0.5em; \x7d\n</style>\n</head>\n<body>\n<article>"

/-- Middle literal of the readerPage template in main.go, from the closing
title tag through the style sheet to the opening article tag. -/
def pageMid : String :=
  "</title>" ++ pageMidRest

/-- Trailing literal of the readerPage template in main.go, closing the
article, body and html tags. -/
def pageTail : String :=
  "</article>\n</body>\n</html>"

/-- readerPage in main.go: the fixed template with the title and the rendered
content spliced in. -/
def readerPage (title content : String) : String :=
  pageHead ++ title ++ pageMid ++ content ++ pageTail

/-- The page openReader in main.go builds and serves for every request: the
markdown is rendered to HTML by the external goldmark renderer, here an
arbitrary function, and embedded with the extracted title into the template. -/
def openReaderPage (renderHTML : String → String) (md : String) : String :=
  readerPage (extractTitle md) (renderHTML md)

/-- Boolean test for the terminal-mode flag, matching the two cases of the
switch in parseFlags. -/
def isTermFlag (a : String) : Bool :=
  a == "-t" || a == "--term"

lemma isTermFlag_eq_true_iff (a : String) :
    isTermFlag a = true ↔ (a = "-t" ∨ a = "--term") := by
  simp [isTermFlag]

lemma parseFlagsAux_eq (args : List String) : ∀ acc : Bool × List String,
    parseFlagsAux acc args =
      (acc.1 || args.any isTermFlag, acc.2 ++ args.filter (fun a => !isTermFlag a)) := by
  induction args with
  | nil => intro acc; simp [parseFlagsAux]
  | cons a rest ih =>
    intro acc
    by_cases h : a = "-t" ∨ a = "--term"
    · have hb : isTermFlag a = true := (isTermFlag_eq_true_iff a).mpr h
      simp [parseFlagsAux, h, ih, hb]
    · have hb : isTermFlag a = false := by
        cases hc : isTermFlag a with
        | false => rfl
        | true => exact absurd ((isTermFlag_eq_true_iff a).mp hc) h
      simp [parseFlagsAux, h, ih, hb]

lemma parseFlags_eq (args : List String) :
    parseFlags args = (args.any isTermFlag, args.filter (fun a => !isTermFlag a)) := by
  simp [parseFlags, parseFlagsAux_eq]

lemma extractTitleAux_eq (ls : List String) :
    extractTitleAux ls =
      match ls.find? (fun l => l.startsWith "# ") with
      | some l => l.drop 2
      | none => "marko reader" := by
  induction ls with
  | nil => rfl
  | cons l rest ih =>
    by_cases h : l.startsWith "# "
    · simp [extractTitleAux, h, List.find?_cons_of_pos]
    · have hb : l.startsWith "# " = false := by
        cases hc : l.startsWith "# " with
        | false => rfl
        | true => exact absurd hc h
      simp [extractTitleAux, hb, List.find?_cons_of_neg, ih]

lemma extractTitle_eq_specTitle (md : String) :
    extractTitle md = specTitle md := by
  simp [extractTitle, specTitle, extractTitleAux_eq]

/-- C7: in terminal mode, whenever standard output is not a terminal, output
prints exactly the rendered string and never takes the pager path, for every
rendered input, terminal size and pager behaviour. -/
theorem output_not_tty (size : Option (Int × Int)) (pagerFails : Bool)
    (rendered : String) :
    output false size pagerFails rendered = OutputAction.direct rendered := by
  simp [output]

/-- C10: whenever the first remaining argument is "-", getInput reads stdin
and succeeds regardless of how many further arguments follow; they are
ignored and no too-many-arguments error is produced. -/
theorem getInput_dash_ignores_rest (env : Env) (rest : List String) :
    getInput env ("-" :: rest) = InputResult.ok env.stdinContent := by
  simp [getInput]

/-- C9: parseFlags returns termMode true exactly when some argument equals
"-t" or "--term", and the remaining list is the original list with every
occurrence of "-t" and "--term" removed, all other arguments kept in their
original relative order; the characterisation is independent of where the
flag sits among the arguments. -/
theorem parseFlags_spec (args : List String) :
    ((parseFlags args).1 = true ↔ ∃ a ∈ args, a = "-t" ∨ a = "--term") ∧
    (parseFlags args).2 = args.filter (fun a => !(a == "-t" || a == "--term")) := by
  rw [parseFlags_eq]
  refine ⟨?_, rfl⟩
  simp [List.any_eq_true, isTermFlag_eq_true_iff]

/-- C9 witness: on a concrete argument list with the flag between two file
arguments the characterisation evaluates as expected. -/
theorem parseFlags_spec_witness :
    (parseFlags ["a.md", "-t", "b.md"]).1 = true ∧
    (parseFlags ["a.md", "-t", "b.md"]).2 = ["a.md", "b.md"] := by
  have h := parseFlags_spec ["a.md", "-t", "b.md"]
  refine ⟨h.1.mpr ⟨"-t", by decide, Or.inl rfl⟩, h.2.trans (by decide)⟩

/-- C6: the terminal wrap width equals min of the detected width and 120
whenever size detection succeeds with a positive width, equals 80 whenever
detection fails or reports a non-positive width, and always lies between 1
and 120. -/
theorem terminalWidth_spec (size : Option (Int × Int)) :
    (∀ w h : Int, size = some (w, h) → 0 < w → terminalWidth size = min w 120) ∧
    (size = none → terminalWidth size = 80) ∧
    (∀ w h : Int, size = some (w, h) → w ≤ 0 → terminalWidth size = 80) ∧
    1 ≤ terminalWidth size ∧ terminalWidth size ≤ 120 := by
  refine ⟨?_, ?_, ?_, ?_, ?_⟩
  · rintro w h rfl hw
    simp only [terminalWidth]
    rw [if_neg (by omega)]
    by_cases h120 : w > 120
    · rw [if_pos h120]; omega
    · rw [if_neg h120]; omega
  · rintro rfl; rfl
  · rintro w h rfl hw
    simp only [terminalWidth]
    rw [if_pos hw]
  · match size with
    | none => simp [terminalWidth]
    | some (w, h) =>
      simp only [terminalWidth]
      by_cases h0 : w ≤ 0
      · rw [if_pos h0]; omega
      · rw [if_neg h0]
        by_cases h120 : w > 120
        · rw [if_pos h120]; omega
        · rw [if_neg h120]; omega
  · match size with
    | none => simp [terminalWidth]
    | some (w, h) =>
      simp only [terminalWidth]
      by_cases h0 : w ≤ 0
      · rw [if_pos h0]; omega
      · rw [if_neg h0]
        by_cases h120 : w > 120
        · rw [if_pos h120]
        · rw [if_neg h120]; omega

/-- C6 witness: at the concrete detected size (200, 50) the wrap width is
min 200 120 = 120 and lies in the stated range. -/
theorem terminalWidth_spec_witness :
    terminalWidth (some ((200 : Int), (50 : Int))) = min 200 120 ∧
    1 ≤ terminalWidth (some ((200 : Int), (50 : Int))) ∧
    terminalWidth (some ((200 : Int), (50 : Int))) ≤ 120 := by
  have h := terminalWidth_spec (some ((200 : Int), (50 : Int)))
  exact ⟨h.1 200 50 rfl (by decide), h.2.2.2.1, h.2.2.2.2⟩

/-- C1: with stdout a terminal, output prints directly when the rendered line
count is at most the terminal height, takes the pager path when it exceeds
it, falls back to printing the full rendered text when the pager fails, and
in every case the rendered text reaches standard output. -/
theorem output_pager_safety (size : Option (Int × Int)) (pagerFails : Bool)
    (rendered : String) :
    ((countNewlines rendered : Int) ≤ terminalHeight size →
      output true size pagerFails rendered = OutputAction.direct rendered) ∧
    (terminalHeight size < (countNewlines rendered : Int) →
      usesPagerPath (output true size pagerFails rendered) = true) ∧
    (terminalHeight size < (countNewlines rendered : Int) → pagerFails = true →
      output true size pagerFails rendered = OutputAction.fallback rendered) ∧
    stdoutText (output true size pagerFails rendered) = rendered := by
  have hout : output true size pagerFails rendered =
      if (countNewlines rendered : Int) ≤ terminalHeight size then
        OutputAction.direct rendered
      else if pagerFails then OutputAction.fallback rendered
      else OutputAction.paged rendered := by
    simp [output]
  by_cases hle : (countNewlines rendered : Int) ≤ terminalHeight size
  · rw [hout, if_pos hle]
    exact ⟨fun _ => rfl, fun hgt => absurd hle (not_le.mpr hgt),
      fun hgt => absurd hle (not_le.mpr hgt), rfl⟩
  · rw [hout, if_neg hle]
    cases pagerFails with
    | true =>
      refine ⟨fun h => absurd h hle, fun _ => ?_, fun _ _ => ?_, ?_⟩ <;>
        simp [usesPagerPath, stdoutText]
    | false =>
      refine ⟨fun h => absurd h hle, fun _ => ?_, fun _ h => ?_, ?_⟩
      · simp [usesPagerPath]
      · exact absurd h (by simp)
      · simp [stdoutText]

/-- C1 witness: on a terminal of height 2 with a rendering of four newlines
and a failing pager, the pager path is taken, the fallback prints the full
rendered text, and the rendered text reaches standard output. -/
theorem output_pager_safety_witness :
    usesPagerPath (output true (some ((80 : Int), (2 : Int))) true "a\nb\nc\nd\n") = true ∧
    output true (some ((80 : Int), (2 : Int))) true "a\nb\nc\nd\n" =
      OutputAction.fallback "a\nb\nc\nd\n" ∧
    stdoutText (output true (some ((80 : Int), (2 : Int))) true "a\nb\nc\nd\n") =
      "a\nb\nc\nd\n" := by
  have h := output_pager_safety (some ((80 : Int), (2 : Int))) true "a\nb\nc\nd\n"
  exact ⟨h.2.1 (by decide), h.2.2.1 (by decide) rfl, h.2.2.2⟩

/-- Environment with piped but empty stdin and no readable files. -/
def envEmptyPipe : Env :=
  { stdinPiped := true
    stdinContent := ""
    fs := fun p => .error (p ++ ": no such file or directory") }

/-- C3 counterexample: piped empty stdin passes getInput without an error,
returning the empty string as markdown bytes, so it is false that every
successfully returned input is non-empty. -/
theorem getInput_nonempty_cex :
    ¬ (∀ (env : Env) (args : List String) (md : String),
        getInput env args = InputResult.ok md → md ≠ "") :=
  fun h => h envEmptyPipe [] "" (by rfl) rfl

/-- C3 amended: when the first remaining argument is a file path, and not a
help flag, version flag or "-", every markdown string getInput returns
successfully is non-empty; stdin input carries no such guarantee. -/
theorem getInput_file_nonempty (env : Env) (path : String) (rest : List String)
    (md : String)
    (hspecial : ¬ (path = "--help" ∨ path = "-h" ∨ path = "--version" ∨
      path = "-v" ∨ path = "-"))
    (hok : getInput env (path :: rest) = InputResult.ok md) : md ≠ "" := by
  have hn1 : ¬ (path = "--help" ∨ path = "-h") := fun hc => hspecial (by tauto)
  have hn2 : ¬ (path = "--version" ∨ path = "-v") := fun hc => hspecial (by tauto)
  have hn3 : ¬ (path = "-") := fun hc => hspecial (by tauto)
  simp only [getInput] at hok
  rw [if_neg hn1, if_neg hn2, if_neg hn3] at hok
  cases rest with
  | cons b bs => simp at hok
  | nil =>
    simp only [ne_eq, not_true_eq_false, if_false] at hok
    cases hfs : env.fs path with
    | error e => rw [hfs] at hok; simp at hok
    | ok data =>
      rw [hfs] at hok
      dsimp only at hok
      by_cases hd : data = ""
      · rw [if_pos hd] at hok; simp at hok
      · rw [if_neg hd] at hok
        injection hok with h
        subst h
        exact hd

/-- Environment holding a single readable non-empty file notes.md. -/
def envOneFile : Env :=
  { stdinPiped := false
    stdinContent := ""
    fs := fun p => if p = "notes.md" then .ok "# Hi\n" else
      .error (p ++ ": no such file or directory") }

/-- C3 amended witness: the concrete file notes.md resolves to non-empty
markdown bytes. -/
theorem getInput_file_nonempty_witness : ("# Hi\n" : String) ≠ "" :=
  getInput_file_nonempty envOneFile "notes.md" [] "# Hi\n" (by decide) (by decide)

/-- Environment holding a single readable empty file empty.md. -/
def envEmptyFile : Env :=
  { stdinPiped := false
    stdinContent := ""
    fs := fun p => if p = "empty.md" then .ok "" else
      .error (p ++ ": no such file or directory") }

/-- C4: a readable empty file given as the single positional argument makes
the program exit with code 1, the file-is-empty message carrying the marko
badge on standard error. -/
theorem mainStep_empty_file (env : Env) (path : String)
    (hfs : env.fs path = Except.ok "")
    (hflag : ¬ (path = "-t" ∨ path = "--term"))
    (hspecial : ¬ (path = "--help" ∨ path = "-h" ∨ path = "--version" ∨
      path = "-v" ∨ path = "-")) :
    mainStep env [path] = ProcResult.exit1 ("marko: " ++ (path ++ ": file is empty") ++ "\n") := by
  have hfl : isTermFlag path = false := by
    cases hc : isTermFlag path with
    | false => rfl
    | true => exact absurd ((isTermFlag_eq_true_iff path).mp hc) hflag
  have hpf : parseFlags [path] = (false, [path]) := by
    rw [parseFlags_eq]; simp [hfl]
  have hn1 : ¬ (path = "--help" ∨ path = "-h") := fun hc => hspecial (by tauto)
  have hn2 : ¬ (path = "--version" ∨ path = "-v") := fun hc => hspecial (by tauto)
  have hn3 : ¬ (path = "-") := fun hc => hspecial (by tauto)
  have hgi : getInput env [path] = InputResult.err (path ++ ": file is empty") := by
    simp only [getInput]
    rw [if_neg hn1, if_neg hn2, if_neg hn3]
    simp [hfs]
  simp [mainStep, hpf, hgi]

/-- C4 witness: the concrete empty file empty.md yields exit code 1 with the
expected message on standard error. -/
theorem mainStep_empty_file_witness :
    mainStep envEmptyFile ["empty.md"] =
      ProcResult.exit1 ("marko: " ++ ("empty.md" ++ ": file is empty") ++ "\n") :=
  mainStep_empty_file envEmptyFile "empty.md" (by rfl) (by decide) (by decide)

/-- C5: when at least two positional arguments remain after flag parsing and
the first is a file path, and not a help flag, version flag or "-", the
program reports too many arguments and exits with code 1. -/
theorem mainStep_too_many_args (env : Env) (argv : List String) (a : String)
    (rest : List String)
    (hargs : (parseFlags argv).2 = a :: rest) (hrest : rest ≠ [])
    (hspecial : ¬ (a = "--help" ∨ a = "-h" ∨ a = "--version" ∨ a = "-v" ∨ a = "-")) :
    mainStep env argv = ProcResult.exit1 "marko: too many arguments (expected 1 file)\n" := by
  have hn1 : ¬ (a = "--help" ∨ a = "-h") := fun hc => hspecial (by tauto)
  have hn2 : ¬ (a = "--version" ∨ a = "-v") := fun hc => hspecial (by tauto)
  have hn3 : ¬ (a = "-") := fun hc => hspecial (by tauto)
  have hgi : getInput env (a :: rest) =
      InputResult.err "too many arguments (expected 1 file)" := by
    simp only [getInput]
    rw [if_neg hn1, if_neg hn2, if_neg hn3, if_pos hrest]
  simp only [mainStep, hargs, hgi]
  rfl

/-- C5 witness: two concrete file arguments yield the too-many-arguments
error and exit code 1. -/
theorem mainStep_too_many_args_witness :
    mainStep envOneFile ["a.md", "b.md"] =
      ProcResult.exit1 "marko: too many arguments (expected 1 file)\n" :=
  mainStep_too_many_args envOneFile ["a.md", "b.md"] "a.md" ["b.md"]
    (by decide) (by decide) (by decide)

/-- C8: whenever the first remaining argument after flag parsing is a help or
version flag, the program prints the usage or version text and exits with
code 0, whatever arguments follow it. -/
theorem mainStep_help_version (env : Env) (argv : List String) (flag : String)
    (rest : List String)
    (hargs : (parseFlags argv).2 = flag :: rest) :
    ((flag = "--help" ∨ flag = "-h") →
      mainStep env argv = ProcResult.exit0 (usage ++ "\n")) ∧
    ((flag = "--version" ∨ flag = "-v") →
      mainStep env argv = ProcResult.exit0 ("marko " ++ version ++ "\n")) := by
  constructor
  · intro hf
    have hgi : getInput env (flag :: rest) = InputResult.exitUsage := by
      simp only [getInput]; rw [if_pos hf]
    simp [mainStep, hargs, hgi]
  · intro hf
    have hn1 : ¬ (flag = "--help" ∨ flag = "-h") := by
      rcases hf with rfl | rfl <;> decide
    have hgi : getInput env (flag :: rest) = InputResult.exitVersion := by
      simp only [getInput]; rw [if_neg hn1, if_pos hf]
    simp [mainStep, hargs, hgi]

/-- C8 witness: a concrete argument list with the help flag first and two
further arguments still prints the usage text and exits with code 0. -/
theorem mainStep_help_version_witness :
    mainStep envOneFile ["--help", "a.md", "b.md"] = ProcResult.exit0 (usage ++ "\n") :=
  (mainStep_help_version envOneFile ["--help", "a.md", "b.md"] "--help"
    ["a.md", "b.md"] (by decide)).1 (Or.inl rfl)

/-- C2: the page served in browser mode is the fixed template with the title
spliced between the opening and the closing title tag, where the title is
specTitle, the text following the heading marker on the first line of the
input starting with it and the fixed default title "marko reader" otherwise;
so the title element of every served page holds exactly specTitle of the
input. -/
theorem openReaderPage_title (renderHTML : String → String) (md : String) :
    openReaderPage renderHTML md =
      pageHeadPre ++ ("<title>" ++ (specTitle md ++ ("</title>" ++
        (pageMidRest ++ (renderHTML md ++ pageTail))))) := by
  simp [openReaderPage, readerPage, extractTitle_eq_specTitle, pageHead, pageMid,
    String.append_assoc]

end Marko
